import Mathlib

/-! QtBuilder: the build-matrix control surface of `src/qtbuilder.cpp`.

A shallow embedding of the option maps, the build state and the control
operations (`setupDefaults`, `option`, `setup`, `disable`, `cancel`, `process`,
`processed`) of `QtBuilder`.  Calls into collaborators (the application log,
the build transcript, the widgets, the signal `cancelling`, the future watcher)
are recorded, in call order, in the `events` trace of the object.

The header `qtbuilder.h` is not part of the sources.  Its types (`Modes`, `Range`,
`States`) are modelled from the specification; its enumerator values, its helpers
`working()`, `failed()`, `cancelled()` and the platform queries are fields of `Env`, so
that the theorems hold for every value they can take.
-/

/-! ## QMap -/

/-- Qt container `QMap<int, V>`: the entries in ascending key order, one entry per key. -/
abbrev QMap (V : Type) := List (Int × V)

namespace QMap

/-- `QMap::insert(key, value)`: replaces the value of an existing key, otherwise
adds the entry at its place in key order. -/
def insert {V : Type} : QMap V → Int → V → QMap V
  | [], k, v => [(k, v)]
  | (k1, v1) :: rest, k, v =>
    if k < k1 then (k, v) :: (k1, v1) :: rest
    else if k = k1 then (k, v) :: rest
    else (k1, v1) :: insert rest k v

/-- `QMap::keys(value)`: the keys whose stored value equals `value`, ascending. -/
def keys {V : Type} [DecidableEq V] (m : QMap V) (value : V) : List Int :=
  (m.filter (fun e => decide (e.2 = value))).map Prod.fst

/-- `QMap::keys()`: all keys, ascending. -/
def allKeys {V : Type} (m : QMap V) : List Int := m.map Prod.fst

/-- `QMap::value(key)` as an option: the value stored for `key`, if any. -/
def value {V : Type} (m : QMap V) (k : Int) : Option V :=
  (m.find? (fun e => decide (e.1 = k))).map Prod.snd

end QMap

/-! ## Types declared in the missing header `qtbuilder.h` -/

/-- Modelled from the spec: the typedef `Modes` is declared in qtbuilder.h, which
is missing; the spec gives an option axis as a "mapping from an integer option
identifier to a boolean enabled flag". -/
abbrev Modes := QMap Bool

/-- Modelled from the spec: the type `Range` is declared in a missing header; the
spec gives it as "a closed inclusive range" of integers, built as `Range(lo, hi)`. -/
structure Range where
  lo : Int
  hi : Int
deriving DecidableEq, Repr

/-- Membership of a value in a closed inclusive range. -/
def Range.contains (r : Range) (v : Int) : Prop := r.lo ≤ v ∧ v ≤ r.hi

instance (r : Range) (v : Int) : Decidable (r.contains v) := by
  unfold Range.contains; infer_instance

/-- Modelled from the spec: the enumeration `States` is declared in qtbuilder.h,
which is missing; the spec gives the build state as
"one of NotStarted | Started | Cancel | Success | Failure(code)". -/
inductive BuildState where
  | NotStarted
  | Started
  | Cancel
  | Success
  | Failure (code : Int)
deriving DecidableEq, Repr

/-- Severity tags passed to the application log in `src/qtbuilder.cpp`. -/
inductive LogType where
  | AppInfo
  | Warning
  | Critical
  | Elevated
  | Process
  | Informal
deriving DecidableEq, Repr

/-- Enumerators of `Options` (declared in the missing qtbuilder.h) that
`src/qtbuilder.cpp` uses, as their integer values. -/
structure Options where
  RamDisk : Int
  Cores : Int
  MSVC2010 : Int
  MSVC2012 : Int
  MSVC2013 : Int
  MSVC2015 : Int
  Shared : Int
  Static : Int
  X86 : Int
  X64 : Int
  Debug : Int
  Release : Int

/-- Enumerators of one C++ enumeration that are keys of the same map have distinct values. -/
def Options.Distinct (o : Options) : Prop :=
  o.RamDisk ≠ o.Cores ∧
  [o.MSVC2010, o.MSVC2012, o.MSVC2013, o.MSVC2015].Nodup ∧
  o.Shared ≠ o.Static ∧ o.X86 ≠ o.X64 ∧ o.Debug ≠ o.Release

instance (o : Options) : Decidable o.Distinct := by
  unfold Options.Distinct; infer_instance

/-- Calls into collaborators, recorded in call order. -/
inductive Event where
  /-- Call `m_log->add(msg, text, type)` (or `doLog`); `text` is empty for the two-argument form. -/
  | logAdd (msg : String) (text : String) (type : LogType)
  /-- Signal `emit cancelling()`. -/
  | cancelling
  /-- Call `m_loop.setFuture(QtConcurrent::run(this, &QtBuilder::loop))`: the background loop is launched. -/
  | setFuture
  /-- Call `m_opt->setDisabled(b)`. -/
  | optSetDisabled (b : Bool)
  /-- Call `m_sel->disable(b)`. -/
  | selDisable (b : Bool)
  /-- Call `m_go->setOff()`. -/
  | goSetOff
  /-- Call `m_bld->endFailure()`. -/
  | bldEndFailure
  /-- Call `m_bld->endSuccess()`. -/
  | bldEndSuccess
  /-- Modal `QMessageBox` showing `msg`. -/
  | messageBox (msg : String)
deriving DecidableEq, Repr

/-- The persisted settings store (`QSettings`) entries that the operations touch. -/
structure Settings where
  BUILDOPT : List String
  LVERSION : Option String
  L_SOURCE : Option String
  L_TARGET : Option String
deriving DecidableEq, Repr

/-- The fields of `QtBuilder` that the embedded operations read or write. -/
structure QtBuilder where
  m_state : BuildState
  m_confs : Modes
  m_archs : Modes
  m_types : Modes
  m_msvcs : Modes
  m_bopts : QMap Int
  m_range : QMap Range
  m_version : String
  m_source : String
  m_libPath : String
  m_target : String
  m_build : String
  /-- Path returned by `m_log->logFile()`. -/
  appLogFile : String
  /-- Path returned by `m_bld->logFile()`. -/
  bldLogFile : String
  /-- The `QSettings` store. -/
  settings : Settings
  /-- Trace of collaborator calls. -/
  events : List Event
deriving DecidableEq, Repr

/-- Function `QString::number(int)`: the decimal rendering. -/
def QString.number (n : Int) : String := toString n

/-- Class `QtBuildSettings`: the persisted list read by its constructor. -/
structure QtBuildSettings where
  settings : List String

/-- Method `QtBuildSettings::set(modes, opt, def)`. -/
def QtBuildSettings.set (b : QtBuildSettings) (modes : Modes) (opt : Int) (dflt : Bool) : Modes :=
  QMap.insert modes opt (decide (QString.number opt ∈ b.settings) || dflt)

/-- Platform services and the declarations of the missing headers that the
operations read: each is a parameter of the embedding. -/
structure Env where
  /-- Enumerator values of `Options`. -/
  ids : Options
  /-- Result of `QThread::idealThreadCount()`. -/
  idealThreadCount : Int
  /-- Result of `QFileInfo(path).exists()`. -/
  fileExists : String → Bool
  /-- Result of `QDir(path).exists()`. -/
  dirExists : String → Bool
  /-- Function `QDir::cleanPath`. -/
  cleanPath : String → String
  /-- Function `QDir::toNativeSeparators`. -/
  toNativeSeparators : String → String
  /-- Constant `SLASH` of helpers.h. -/
  SLASH : String
  /-- Constant `qtConfigure`: the build-entry marker file of the source tree. -/
  qtConfigure : String
  /-- Result of `working()`, declared in the missing qtbuilder.h. -/
  working : QtBuilder → Bool
  /-- Result of `failed()`, declared in the missing qtbuilder.h. -/
  failed : QtBuilder → Bool
  /-- Result of `cancelled()`, declared in the missing qtbuilder.h. -/
  cancelled : QtBuilder → Bool
  /-- Rendering `PLCHD.arg(m_state, 4, 10, FILLNUL)` of a state number. -/
  stateNumber : BuildState → String
  /-- Rendering `META_ENUM(States).key(m_state)` of a state name. -/
  stateName : BuildState → String

namespace QtBuilder

/-- Record one collaborator call. -/
def emit (s : QtBuilder) (e : Event) : QtBuilder := { s with events := s.events ++ [e] }

/-- Modelled from the spec: `working()` is declared in the missing qtbuilder.h; the
spec has a build running exactly "while already `Started`".  Used as the `working`
of the sample environment. -/
def working (s : QtBuilder) : Bool := decide (s.m_state = BuildState.Started)

/-- Modelled from the spec: `failed()` is declared in the missing qtbuilder.h; the
spec's failed outcome is the state `Failure(code)`.  Used as the `failed` of the sample
environment. -/
def failed (s : QtBuilder) : Bool :=
  match s.m_state with
  | BuildState.Failure _ => true
  | _ => false

/-- Modelled from the spec: `cancelled()` is declared in the missing qtbuilder.h;
the spec's cancelled outcome is the state `Cancel`.  Used as the `cancelled` of the
sample environment. -/
def cancelled (s : QtBuilder) : Bool := decide (s.m_state = BuildState.Cancel)

/-- Constructor prefix of `QtBuilder::QtBuilder`: `m_state = NotStarted`, empty maps. -/
def init (st : Settings) : QtBuilder :=
  { m_state := BuildState.NotStarted
    m_confs := [], m_archs := [], m_types := [], m_msvcs := []
    m_bopts := [], m_range := []
    m_version := "", m_source := "", m_libPath := "", m_target := "", m_build := ""
    appLogFile := "", bldLogFile := ""
    settings := st
    events := [] }

/-- Method `QtBuilder::setupDefaults()`.  The two default path literals are read as the
Windows paths they spell. -/
def setupDefaults (env : Env) (s : QtBuilder) : QtBuilder :=
  let cores := env.idealThreadCount
  let b : QtBuildSettings := ⟨s.settings.BUILDOPT⟩
  let o := env.ids
  let msvcs := b.set (b.set (b.set (b.set s.m_msvcs o.MSVC2010 false) o.MSVC2012 false)
    o.MSVC2013 true) o.MSVC2015 false
  let types := b.set (b.set s.m_types o.Shared true) o.Static true
  let archs := b.set (b.set s.m_archs o.X86 true) o.X64 true
  let confs := b.set (b.set s.m_confs o.Debug true) o.Release true
  let bopts := QMap.insert (QMap.insert s.m_bopts o.RamDisk 4) o.Cores (max (cores - 1) 1)
  let range := QMap.insert (QMap.insert s.m_range o.RamDisk ⟨3, 10⟩) o.Cores ⟨1, cores⟩
  { s with
    m_msvcs := msvcs, m_types := types, m_archs := archs, m_confs := confs
    m_bopts := bopts, m_range := range
    m_version := s.settings.LVERSION.getD "4.8.7"
    m_source := env.cleanPath (s.settings.L_SOURCE.getD "C:\\Qt\\4.8.7")
    m_libPath := env.cleanPath (s.settings.L_TARGET.getD "C:\\Qt\\4.8.7\\builds") }

/-- Method `QtBuilder::option(opt, value)`: `m_bopts[opt] = value`. -/
def option (s : QtBuilder) (opt : Int) (value : Int) : QtBuilder :=
  { s with m_bopts := QMap.insert s.m_bopts opt value }

/-- Inner loop body of `QtBuilder::setup` on one axis: `*JT = option` stores the
integer converted to bool at the entry whose key is `option`. -/
def setupAxis (m : Modes) (option : Int) : Modes :=
  m.map (fun e => if e.1 = option then (e.1, decide (option ≠ 0)) else e)

/-- Method `QtBuilder::setup(option)`: walks `m_opts` (confs, archs, types, msvcs),
then persists the keys whose flag is set.  The mutex guard has no counterpart in the
sequential embedding. -/
def setup (s : QtBuilder) (option : Int) : QtBuilder :=
  let confs := setupAxis s.m_confs option
  let archs := setupAxis s.m_archs option
  let types := setupAxis s.m_types option
  let msvcs := setupAxis s.m_msvcs option
  let opts := (QMap.keys confs true ++ QMap.keys archs true ++ QMap.keys types true
    ++ QMap.keys msvcs true).map QString.number
  { s with
    m_confs := confs, m_archs := archs, m_types := types, m_msvcs := msvcs
    settings := { s.settings with BUILDOPT := opts } }

/-- Method `QtBuilder::disable(disable)`. -/
def disable (s : QtBuilder) (dis : Bool) : QtBuilder :=
  ((s.emit (Event.logAdd "Shutting down ..." "" LogType.Warning)).emit
    (Event.optSetDisabled dis)).emit (Event.selDisable dis)

/-- Method `QtBuilder::cancel()`. -/
def cancel (s : QtBuilder) : QtBuilder :=
  ({ s with m_state := BuildState.Cancel }).emit Event.cancelling

/-- Method `QtBuilder::process(start)`.  The call `disable()` takes the default
argument of the declaration (missing header), read as `true`: the method logs
"Shutting down ..." and disables the option widgets. -/
def process (env : Env) (s : QtBuilder) (start : Bool) : QtBuilder :=
  if env.working s then
    s.cancel.disable true
  else if start then
    if !env.fileExists (s.m_source ++ env.SLASH ++ env.qtConfigure) then
      ((s.emit (Event.logAdd "Qt sources path mismatch:" (env.toNativeSeparators s.m_source)
        LogType.Warning)).emit Event.goSetOff)
    else if !env.dirExists s.m_libPath then
      ((s.emit (Event.logAdd "Build target path mismatch:" (env.toNativeSeparators s.m_target)
        LogType.Warning)).emit Event.goSetOff)
    else
      let ok := true
      let ok := ok && !(QMap.keys s.m_confs true).isEmpty
      let ok := ok && !(QMap.keys s.m_types true).isEmpty
      let ok := ok && !(QMap.keys s.m_archs true).isEmpty
      let ok := ok && !(QMap.keys s.m_msvcs true).isEmpty
      let s1 := { s with m_state := if ok then BuildState.Started else BuildState.NotStarted }
      if ok then
        (s1.emit Event.setFuture).emit (Event.optSetDisabled true)
      else s1.emit Event.goSetOff
  else s

/-- Method `QtBuilder::message()`. -/
def message (env : Env) (s : QtBuilder) : QtBuilder :=
  let msg :=
    if env.cancelled s then "<b>Process forcefully cancelled!</b>"
    else if env.failed s then "<b>Process ended with errors!</b>"
    else "<b>Process sucessfully completed.</b>"
  let msg := msg ++ "<br/><a href=\"file:///" ++ env.toNativeSeparators s.appLogFile
    ++ "\">Open app log file</a>"
  let msg :=
    if env.failed s then
      msg ++ "<br/><a href=\"file:///" ++ env.toNativeSeparators (s.m_build ++ s.bldLogFile)
        ++ "\">Open last buil log</a>"
    else msg
  s.emit (Event.messageBox msg)

/-- Method `QtBuilder::processed()`. -/
def processed (env : Env) (s : QtBuilder) : QtBuilder :=
  let msg := "QtBuilder ended with:"
  let s1 :=
    if env.failed s then
      let errn := env.stateNumber s.m_state
      let text := "Error " ++ errn ++ " (" ++ env.stateName s.m_state ++ ")\r\n"
      (s.emit Event.bldEndFailure).emit (Event.logAdd msg text.toUpper LogType.Elevated)
    else if env.cancelled s then
      (s.emit Event.bldEndFailure).emit
        (Event.logAdd "QtBuilder was cancelled." "" LogType.Warning)
    else
      (s.emit Event.bldEndSuccess).emit
        (Event.logAdd msg ("No Errors\r\n").toUpper LogType.AppInfo)
  ((message env s1).disable false).emit Event.goSetOff

end QtBuilder

/-- Member `m_opts`: the four axes in the order the constructor appends them. -/
def QtBuilder.m_opts (s : QtBuilder) : List Modes := [s.m_confs, s.m_archs, s.m_types, s.m_msvcs]

/-- The keys whose flag is set, over the four axes in the order of `m_opts`:
the list that `setup` persists, before rendering. -/
def QtBuilder.enabledKeys (s : QtBuilder) : List Int :=
  QMap.keys s.m_confs true ++ QMap.keys s.m_archs true ++ QMap.keys s.m_types true
    ++ QMap.keys s.m_msvcs true

/-- All keys of the four axes, in the order of `m_opts`. -/
def QtBuilder.optionKeys (s : QtBuilder) : List Int :=
  QMap.allKeys s.m_confs ++ QMap.allKeys s.m_archs ++ QMap.allKeys s.m_types
    ++ QMap.allKeys s.m_msvcs

/-- The collaborator calls made between the object states `s` and `s1`. -/
def QtBuilder.trace (s s1 : QtBuilder) : List Event := s1.events.drop s.events.length

/-- A log entry tagged `Critical` or `Elevated`. -/
def Event.isSevere : Event → Bool
  | Event.logAdd _ _ LogType.Critical => true
  | Event.logAdd _ _ LogType.Elevated => true
  | _ => false

/-- Sample enumerator values: twelve consecutive integers in the order of use. -/
def sampleIds : Options :=
  { RamDisk := 0, Cores := 1, MSVC2010 := 2, MSVC2012 := 3, MSVC2013 := 4, MSVC2015 := 5
    Shared := 6, Static := 7, X86 := 8, X64 := 9, Debug := 10, Release := 11 }

/-- Sample environment with a given core count and given outcomes of the two path checks. -/
def sampleEnv (cores : Int) (src lib : Bool) : Env :=
  { ids := sampleIds
    idealThreadCount := cores
    fileExists := fun _ => src
    dirExists := fun _ => lib
    cleanPath := fun p => p
    toNativeSeparators := fun p => p
    SLASH := "/"
    qtConfigure := "configure"
    working := QtBuilder.working
    failed := QtBuilder.failed
    cancelled := QtBuilder.cancelled
    stateNumber := fun st => match st with
      | BuildState.Failure c => toString c
      | _ => "0"
    stateName := fun _ => "" }

/-- Empty settings store. -/
def noSettings : Settings := { BUILDOPT := [], LVERSION := none, L_SOURCE := none, L_TARGET := none }

/-- The object right after `setupDefaults` with an empty settings store and four cores. -/
def fresh : QtBuilder := QtBuilder.setupDefaults (sampleEnv 4 true true) (QtBuilder.init noSettings)

/-- The freshly initialised object put in build state `st`. -/
def finished (st : BuildState) : QtBuilder := { fresh with m_state := st }

/-- The object with a run finished in state `st` and every entry of axis `m_confs` switched off. -/
def noConfs (st : BuildState) : QtBuilder :=
  { fresh with m_state := st, m_confs := [(10, false), (11, false)] }

/-! ## Trace lemmas -/

theorem QtBuilder.trace_append (s s1 : QtBuilder) (l : List Event)
    (h : s1.events = s.events ++ l) : QtBuilder.trace s s1 = l := by
  simp [QtBuilder.trace, h]

theorem QMap.keys_isEmpty_false {m : Modes} (h : (QMap.keys m true).isEmpty = false) :
    ∃ e ∈ m, e.2 = true := by
  cases hk : QMap.keys m true with
  | nil => simp [hk] at h
  | cons k ks =>
    have hmem : k ∈ QMap.keys m true := by simp [hk]
    simp only [QMap.keys, List.mem_map, List.mem_filter, decide_eq_true_eq] at hmem
    obtain ⟨e, ⟨he, hv⟩, _⟩ := hmem
    exact ⟨e, he, hv⟩

/-! ## Start, cancel and completion -/

/-- C1 (validate-before-start): from every prior build state other than Started, for
every start flag and every outcome of the two path checks, if the state after
`process(start)` is Started then each of the four option axes had an enabled entry. -/
theorem process_started_axes_enabled (env : Env) (s : QtBuilder) (start : Bool)
    (hprior : s.m_state ≠ BuildState.Started)
    (hafter : (s.process env start).m_state = BuildState.Started) :
    (∃ e ∈ s.m_confs, e.2 = true) ∧ (∃ e ∈ s.m_archs, e.2 = true) ∧
    (∃ e ∈ s.m_types, e.2 = true) ∧ (∃ e ∈ s.m_msvcs, e.2 = true) := by
  unfold QtBuilder.process at hafter
  cases hw : env.working s with
  | true =>
    simp [hw, QtBuilder.cancel, QtBuilder.disable, QtBuilder.emit] at hafter
  | false =>
    simp only [hw, Bool.false_eq_true, if_false] at hafter
    cases start with
    | false => exact absurd hafter hprior
    | true =>
      simp only [if_true] at hafter
      split_ifs at hafter with h1 h2
      · exact absurd hafter hprior
      · exact absurd hafter hprior
      · rename_i hok
        simp only [Bool.true_and, Bool.and_eq_true, Bool.not_eq_true_eq_eq_false,
          Bool.not_eq_eq_eq_not, Bool.not_true] at hok
        obtain ⟨⟨⟨hc, ht⟩, ha⟩, hm⟩ := hok
        exact ⟨QMap.keys_isEmpty_false hc, QMap.keys_isEmpty_false ha,
          QMap.keys_isEmpty_false ht, QMap.keys_isEmpty_false hm⟩
      · simp [QtBuilder.emit] at hafter

/-- Witness of C1: the freshly initialised object starts, and all four axes are enabled. -/
theorem process_started_axes_enabled_witness :
    fresh.m_state ≠ BuildState.Started ∧
    (fresh.process (sampleEnv 4 true true) true).m_state = BuildState.Started ∧
    ((∃ e ∈ fresh.m_confs, e.2 = true) ∧ (∃ e ∈ fresh.m_archs, e.2 = true) ∧
     (∃ e ∈ fresh.m_types, e.2 = true) ∧ (∃ e ∈ fresh.m_msvcs, e.2 = true)) :=
  ⟨by decide, by decide,
    process_started_axes_enabled (sampleEnv 4 true true) fresh true (by decide) (by decide)⟩

/-- C3: `process(start)` invoked while a build is running is a cancellation request for
either value of the flag: the state becomes Cancel, the call emits `cancelling`, logs the
shutdown warning and disables the option widgets, and does not launch the loop. -/
theorem process_while_working_cancels (env : Env) (s : QtBuilder) (start : Bool)
    (hw : env.working s = true) :
    (s.process env start).m_state = BuildState.Cancel ∧
    QtBuilder.trace s (s.process env start) =
      [Event.cancelling, Event.logAdd "Shutting down ..." "" LogType.Warning,
       Event.optSetDisabled true, Event.selDisable true] ∧
    Event.cancelling ∈ QtBuilder.trace s (s.process env start) ∧
    Event.setFuture ∉ QtBuilder.trace s (s.process env start) := by
  have htr : QtBuilder.trace s (s.process env start) =
      [Event.cancelling, Event.logAdd "Shutting down ..." "" LogType.Warning,
       Event.optSetDisabled true, Event.selDisable true] := by
    apply QtBuilder.trace_append
    simp [QtBuilder.process, hw, QtBuilder.cancel, QtBuilder.disable, QtBuilder.emit]
  refine ⟨?_, htr, ?_, ?_⟩
  · simp [QtBuilder.process, hw, QtBuilder.cancel, QtBuilder.disable, QtBuilder.emit]
  · rw [htr]; decide
  · rw [htr]; decide

/-- Witness of C3: a running build that receives `process(true)` is cancelled. -/
theorem process_while_working_cancels_witness :
    (sampleEnv 4 true true).working (noConfs BuildState.Started) = true ∧
    (((noConfs BuildState.Started).process (sampleEnv 4 true true) true).m_state
        = BuildState.Cancel ∧
      QtBuilder.trace (noConfs BuildState.Started)
        ((noConfs BuildState.Started).process (sampleEnv 4 true true) true) =
        [Event.cancelling, Event.logAdd "Shutting down ..." "" LogType.Warning,
         Event.optSetDisabled true, Event.selDisable true] ∧
      Event.cancelling ∈ QtBuilder.trace (noConfs BuildState.Started)
        ((noConfs BuildState.Started).process (sampleEnv 4 true true) true) ∧
      Event.setFuture ∉ QtBuilder.trace (noConfs BuildState.Started)
        ((noConfs BuildState.Started).process (sampleEnv 4 true true) true)) :=
  ⟨by decide, process_while_working_cancels (sampleEnv 4 true true)
    (noConfs BuildState.Started) true (by decide)⟩

/-- C4, as stated, fails: `cancel()` after a successful run is not a no-op, it
overwrites the state Success with Cancel. -/
theorem cancel_noop_counterexample :
    ¬ (∀ s : QtBuilder, s.m_state ≠ BuildState.Started → s.cancel.m_state = s.m_state) := by
  intro h
  exact absurd (h (noConfs BuildState.Success) (by decide)) (by decide)

/-- C4 amended: `cancel()` has no guard; from every prior build state it sets the state
to Cancel and emits `cancelling`, so it leaves the state as it was only when the state
was already Cancel. -/
theorem cancel_sets_cancel (s : QtBuilder) :
    s.cancel.m_state = BuildState.Cancel ∧
    QtBuilder.trace s s.cancel = [Event.cancelling] ∧
    (s.cancel.m_state = s.m_state ↔ s.m_state = BuildState.Cancel) := by
  refine ⟨rfl, ?_, ?_⟩
  · apply QtBuilder.trace_append
    simp [QtBuilder.cancel, QtBuilder.emit]
  · have h : s.cancel.m_state = BuildState.Cancel := rfl
    rw [h]
    exact eq_comm

/-- C5, as stated, fails: after a successful run, `process(true)` with both paths present
and the configuration axis all disabled leaves the state NotStarted, not Success. -/
theorem process_failfast_counterexample :
    ¬ (∀ (env : Env) (s : QtBuilder),
        (s.m_state = BuildState.NotStarted ∨ s.m_state = BuildState.Success ∨
          ∃ c, s.m_state = BuildState.Failure c) →
        (env.fileExists (s.m_source ++ env.SLASH ++ env.qtConfigure) = false ∨
          env.dirExists s.m_libPath = false ∨
          QMap.keys s.m_confs true = [] ∨ QMap.keys s.m_archs true = [] ∨
          QMap.keys s.m_types true = [] ∨ QMap.keys s.m_msvcs true = []) →
        (s.process env true).m_state = s.m_state ∧
          Event.setFuture ∉ QtBuilder.trace s (s.process env true)) := by
  intro h
  have h1 := (h (sampleEnv 4 true true) (noConfs BuildState.Success)
    (Or.inr (Or.inl rfl)) (Or.inr (Or.inr (Or.inl (by decide))))).1
  exact absurd h1 (by decide)

/-- C5 amended: when no build is running (`working()` is false) and `process(true)` fails a check, the loop is
not launched; a failed path check leaves the build state as it was, while an option axis
with no enabled entry (both paths present) sets the build state to NotStarted. -/
theorem process_failfast (env : Env) (s : QtBuilder)
    (hw : env.working s = false)
    (hfail : env.fileExists (s.m_source ++ env.SLASH ++ env.qtConfigure) = false ∨
      env.dirExists s.m_libPath = false ∨
      QMap.keys s.m_confs true = [] ∨ QMap.keys s.m_archs true = [] ∨
      QMap.keys s.m_types true = [] ∨ QMap.keys s.m_msvcs true = []) :
    Event.setFuture ∉ QtBuilder.trace s (s.process env true) ∧
    ((env.fileExists (s.m_source ++ env.SLASH ++ env.qtConfigure) = false ∨
        env.dirExists s.m_libPath = false) → (s.process env true).m_state = s.m_state) ∧
    ((env.fileExists (s.m_source ++ env.SLASH ++ env.qtConfigure) = true ∧
        env.dirExists s.m_libPath = true) →
      (s.process env true).m_state = BuildState.NotStarted) := by
  cases hf : env.fileExists (s.m_source ++ env.SLASH ++ env.qtConfigure) with
  | false =>
    have htr : QtBuilder.trace s (s.process env true) =
        [Event.logAdd "Qt sources path mismatch:" (env.toNativeSeparators s.m_source)
          LogType.Warning, Event.goSetOff] := by
      apply QtBuilder.trace_append
      simp [QtBuilder.process, hw, hf, QtBuilder.emit]
    have hst : (s.process env true).m_state = s.m_state := by
      simp [QtBuilder.process, hw, hf, QtBuilder.emit]
    refine ⟨by rw [htr]; simp, fun _ => hst, ?_⟩
    rintro ⟨h, _⟩; simp at h
  | true =>
    cases hd : env.dirExists s.m_libPath with
    | false =>
      have htr : QtBuilder.trace s (s.process env true) =
          [Event.logAdd "Build target path mismatch:" (env.toNativeSeparators s.m_target)
            LogType.Warning, Event.goSetOff] := by
        apply QtBuilder.trace_append
        simp [QtBuilder.process, hw, hf, hd, QtBuilder.emit]
      have hst : (s.process env true).m_state = s.m_state := by
        simp [QtBuilder.process, hw, hf, hd, QtBuilder.emit]
      refine ⟨by rw [htr]; simp, fun _ => hst, ?_⟩
      rintro ⟨_, h⟩; simp at h
    | true =>
      have hempty : QMap.keys s.m_confs true = [] ∨ QMap.keys s.m_archs true = [] ∨
          QMap.keys s.m_types true = [] ∨ QMap.keys s.m_msvcs true = [] := by
        rcases hfail with h | h | h
        · rw [hf] at h; simp at h
        · rw [hd] at h; simp at h
        · exact h
      have hok : (true && !(QMap.keys s.m_confs true).isEmpty &&
          !(QMap.keys s.m_types true).isEmpty && !(QMap.keys s.m_archs true).isEmpty &&
          !(QMap.keys s.m_msvcs true).isEmpty) = false := by
        rcases hempty with h | h | h | h <;> simp [h]
      have htr : QtBuilder.trace s (s.process env true) = [Event.goSetOff] := by
        apply QtBuilder.trace_append
        simp only [QtBuilder.process, hw, hf, hd, hok]
        simp [QtBuilder.emit]
      have hst : (s.process env true).m_state = BuildState.NotStarted := by
        simp only [QtBuilder.process, hw, hf, hd, hok]
        simp [QtBuilder.emit]
      refine ⟨by rw [htr]; decide, ?_, fun _ => hst⟩
      rintro (h | h) <;> simp at h

/-- Witness of C5 amended: after a successful run with the configuration axis all
disabled and both paths present, `process(true)` resets the state to NotStarted and does
not launch the loop. -/
theorem process_failfast_witness :
    Event.setFuture ∉ QtBuilder.trace (noConfs BuildState.Success)
      ((noConfs BuildState.Success).process (sampleEnv 4 true true) true) ∧
    ((noConfs BuildState.Success).process (sampleEnv 4 true true) true).m_state
      = BuildState.NotStarted :=
  have h := process_failfast (sampleEnv 4 true true) (noConfs BuildState.Success)
    (by decide) (Or.inr (Or.inr (Or.inl (by decide))))
  ⟨h.1, h.2.2 ⟨rfl, rfl⟩⟩

/-- C7: `processed()` takes one of three outcome branches.  When `failed()` holds the
transcript is finalised once, with the failure marker, and the log receives exactly one
Critical/Elevated entry, the summary.  When `failed()` does not hold and `cancelled()`
holds the transcript is finalised once, with the failure marker, and the log receives the
cancellation Warning and no Critical/Elevated entry.  Otherwise the transcript is
finalised once, with the success marker, and the log receives no Critical/Elevated
entry. -/
theorem processed_outcomes (env : Env) (s : QtBuilder) :
    (env.failed s = true →
      (QtBuilder.trace s (s.processed env)).count Event.bldEndFailure = 1 ∧
      (QtBuilder.trace s (s.processed env)).count Event.bldEndSuccess = 0 ∧
      (QtBuilder.trace s (s.processed env)).filter Event.isSevere =
        [Event.logAdd "QtBuilder ended with:"
          ("Error " ++ env.stateNumber s.m_state ++ " (" ++ env.stateName s.m_state
            ++ ")\r\n").toUpper LogType.Elevated]) ∧
    (env.failed s = false → env.cancelled s = true →
      (QtBuilder.trace s (s.processed env)).count Event.bldEndFailure = 1 ∧
      (QtBuilder.trace s (s.processed env)).count Event.bldEndSuccess = 0 ∧
      Event.logAdd "QtBuilder was cancelled." "" LogType.Warning
        ∈ QtBuilder.trace s (s.processed env) ∧
      (QtBuilder.trace s (s.processed env)).filter Event.isSevere = []) ∧
    (env.failed s = false → env.cancelled s = false →
      (QtBuilder.trace s (s.processed env)).count Event.bldEndSuccess = 1 ∧
      (QtBuilder.trace s (s.processed env)).count Event.bldEndFailure = 0 ∧
      (QtBuilder.trace s (s.processed env)).filter Event.isSevere = []) := by
  have hev : ∀ l : List Event, List.drop s.events.length (s.events ++ l) = l :=
    fun l => List.drop_left _ _
  refine ⟨?_, ?_, ?_⟩
  · intro hf
    cases hc : env.cancelled s <;>
      simp [QtBuilder.trace, QtBuilder.processed, QtBuilder.message, QtBuilder.disable,
        QtBuilder.emit, hf, hc, hev, List.count_cons, List.filter, Event.isSevere]
  · intro hf hc
    simp [QtBuilder.trace, QtBuilder.processed, QtBuilder.message, QtBuilder.disable,
      QtBuilder.emit, hf, hc, hev, List.count_cons, List.filter, Event.isSevere]
  · intro hf hc
    simp [QtBuilder.trace, QtBuilder.processed, QtBuilder.message, QtBuilder.disable,
      QtBuilder.emit, hf, hc, hev, List.count_cons, List.filter, Event.isSevere]

/-- Witness of C7: the three outcomes at the states Failure(2), Cancel and Success. -/
theorem processed_outcomes_witness :
    ((QtBuilder.trace (finished (BuildState.Failure 2))
        ((finished (BuildState.Failure 2)).processed (sampleEnv 4 true true))).count
          Event.bldEndFailure = 1 ∧
      ((QtBuilder.trace (finished (BuildState.Failure 2))
        ((finished (BuildState.Failure 2)).processed (sampleEnv 4 true true))).filter
          Event.isSevere).length = 1) ∧
    (Event.logAdd "QtBuilder was cancelled." "" LogType.Warning
        ∈ QtBuilder.trace (finished BuildState.Cancel)
          ((finished BuildState.Cancel).processed (sampleEnv 4 true true)) ∧
      (QtBuilder.trace (finished BuildState.Cancel)
        ((finished BuildState.Cancel).processed (sampleEnv 4 true true))).filter
          Event.isSevere = []) ∧
    ((QtBuilder.trace (finished BuildState.Success)
        ((finished BuildState.Success).processed (sampleEnv 4 true true))).count
          Event.bldEndSuccess = 1 ∧
      (QtBuilder.trace (finished BuildState.Success)
        ((finished BuildState.Success).processed (sampleEnv 4 true true))).filter
          Event.isSevere = []) :=
  have hf := (processed_outcomes (sampleEnv 4 true true) (finished (BuildState.Failure 2))).1
    rfl
  have hc := (processed_outcomes (sampleEnv 4 true true) (finished BuildState.Cancel)).2.1
    rfl rfl
  have hs := (processed_outcomes (sampleEnv 4 true true) (finished BuildState.Success)).2.2
    rfl rfl
  ⟨⟨hf.1, by rw [hf.2.2]; rfl⟩, ⟨hc.2.2.1, hc.2.2.2⟩, ⟨hs.1, hs.2.2⟩⟩

/-! ## Numeric options -/

theorem QMap.value_insert_self {V : Type} (m : QMap V) (k : Int) (v : V) :
    QMap.value (QMap.insert m k v) k = some v := by
  induction m with
  | nil => simp [QMap.insert, QMap.value]
  | cons e rest ih =>
    obtain ⟨k1, v1⟩ := e
    unfold QMap.insert
    split_ifs with h1 h2
    · simp [QMap.value]
    · simp [QMap.value]
    · have hne : ¬ k1 = k := fun h => h2 h.symm
      simpa [QMap.value, List.find?, hne] using ih

theorem QMap.value_insert_of_ne {V : Type} (m : QMap V) (k j : Int) (v : V) (hj : j ≠ k) :
    QMap.value (QMap.insert m k v) j = QMap.value m j := by
  have hkj : ¬ k = j := fun h => hj h.symm
  induction m with
  | nil => simp [QMap.insert, QMap.value, hkj]
  | cons e rest ih =>
    obtain ⟨k1, v1⟩ := e
    unfold QMap.insert
    split_ifs with h1 h2
    · simp [QMap.value, List.find?, hkj]
    · subst h2
      simp [QMap.value, List.find?, hkj]
    · by_cases h3 : k1 = j
      · simp [QMap.value, List.find?, h3]
      · simpa [QMap.value, List.find?, h3] using ih

/-- C2, as stated, fails: on the freshly initialised object the scratch-volume size has
range [3, 10] and value 4, and `option(RamDisk, 11)` stores 11. -/
theorem option_out_of_range_counterexample :
    ¬ (∀ (s : QtBuilder) (opt value : Int) (r : Range),
        QMap.value s.m_range opt = some r → ¬ r.contains value →
        QMap.value (s.option opt value).m_bopts opt = QMap.value s.m_bopts opt) := by
  intro h
  have h1 := h fresh sampleIds.RamDisk 11 ⟨3, 10⟩ (by decide) (by decide)
  exact absurd h1 (by decide)

/-- C2 amended: `option(id, value)` makes no range check; for every id and every integer
value, inside the configured range or not, the value stored for `id` after the call is
`value`, the values of the other ids are as before, and the ranges are as before. -/
theorem option_stores_value (s : QtBuilder) (opt value : Int) :
    QMap.value (s.option opt value).m_bopts opt = some value ∧
    (∀ j, j ≠ opt → QMap.value (s.option opt value).m_bopts j = QMap.value s.m_bopts j) ∧
    (s.option opt value).m_range = s.m_range :=
  ⟨QMap.value_insert_self _ _ _, fun _ hj => QMap.value_insert_of_ne _ _ _ _ hj, rfl⟩

/-- C8, as stated, fails: when the platform reports -1 cores, the job count 1 installed by
`setupDefaults` lies outside its configured range [1, -1]. -/
theorem setupDefaults_ranges_counterexample :
    ¬ (∀ (env : Env) (s : QtBuilder) (v : Int) (r : Range), env.ids.Distinct →
        QMap.value (s.setupDefaults env).m_bopts env.ids.Cores = some v →
        QMap.value (s.setupDefaults env).m_range env.ids.Cores = some r →
        r.contains v) := by
  intro h
  have h1 := h (sampleEnv (-1) true true) (QtBuilder.init noSettings) 1 ⟨1, -1⟩
    (by decide) (by decide) (by decide)
  exact absurd h1 (by decide)

/-- C8 amended: for every core count of at least 1 reported by the platform, the numeric
values installed by `setupDefaults` lie in their configured ranges: the scratch-volume
size is 4 with range [3, 10], the job count is max(cores - 1, 1) with range [1, cores]. -/
theorem setupDefaults_ranges (env : Env) (s : QtBuilder) (hd : env.ids.Distinct)
    (hcores : 1 ≤ env.idealThreadCount) :
    QMap.value (s.setupDefaults env).m_bopts env.ids.RamDisk = some 4 ∧
    QMap.value (s.setupDefaults env).m_range env.ids.RamDisk = some ⟨3, 10⟩ ∧
    Range.contains ⟨3, 10⟩ 4 ∧
    QMap.value (s.setupDefaults env).m_bopts env.ids.Cores
      = some (max (env.idealThreadCount - 1) 1) ∧
    QMap.value (s.setupDefaults env).m_range env.ids.Cores
      = some ⟨1, env.idealThreadCount⟩ ∧
    Range.contains ⟨1, env.idealThreadCount⟩ (max (env.idealThreadCount - 1) 1) := by
  have hne : env.ids.RamDisk ≠ env.ids.Cores := hd.1
  refine ⟨?_, ?_, by decide, ?_, ?_, ?_⟩
  · simp only [QtBuilder.setupDefaults]
    rw [QMap.value_insert_of_ne _ _ _ _ hne, QMap.value_insert_self]
  · simp only [QtBuilder.setupDefaults]
    rw [QMap.value_insert_of_ne _ _ _ _ hne, QMap.value_insert_self]
  · simp only [QtBuilder.setupDefaults]
    rw [QMap.value_insert_self]
  · simp only [QtBuilder.setupDefaults]
    rw [QMap.value_insert_self]
  · unfold Range.contains
    constructor
    · exact le_max_right _ _
    · simp only [max_le_iff]
      constructor <;> omega

/-- Witness of C8 amended: four cores give the job count 3 inside the range [1, 4]. -/
theorem setupDefaults_ranges_witness :
    QMap.value fresh.m_bopts sampleIds.Cores = some 3 ∧
    QMap.value fresh.m_range sampleIds.Cores = some ⟨1, 4⟩ ∧
    Range.contains ⟨1, 4⟩ 3 :=
  have h := setupDefaults_ranges (sampleEnv 4 true true) (QtBuilder.init noSettings)
    (by decide) (by decide)
  ⟨h.2.2.2.1, h.2.2.2.2.1, h.2.2.2.2.2⟩

/-! ## Option axes -/

theorem QMap.mem_keys_true (m : Modes) (k : Int) : k ∈ QMap.keys m true ↔ (k, true) ∈ m := by
  simp only [QMap.keys, List.mem_map, List.mem_filter, decide_eq_true_eq]
  constructor
  · rintro ⟨⟨k1, b⟩, ⟨he, hb⟩, hk⟩
    simp only at hb hk
    subst hb; subst hk
    exact he
  · intro h
    exact ⟨(k, true), ⟨h, rfl⟩, rfl⟩

theorem QMap.mem_allKeys (m : Modes) (k : Int) : k ∈ QMap.allKeys m ↔ ∃ b, (k, b) ∈ m := by
  simp [QMap.allKeys]

theorem QtBuilder.allKeys_setupAxis (m : Modes) (o : Int) :
    QMap.allKeys (QtBuilder.setupAxis m o) = QMap.allKeys m := by
  induction m with
  | nil => rfl
  | cons e rest ih =>
    simp only [QMap.allKeys, QtBuilder.setupAxis, List.map_cons] at ih ⊢
    rw [ih]
    by_cases h : e.1 = o <;> simp [h]

theorem QtBuilder.mem_setupAxis_of_ne (m : Modes) (o k : Int) (b : Bool) (hk : k ≠ o) :
    (k, b) ∈ QtBuilder.setupAxis m o ↔ (k, b) ∈ m := by
  simp only [QtBuilder.setupAxis, List.mem_map]
  constructor
  · rintro ⟨e, he, heq⟩
    by_cases h : e.1 = o
    · rw [if_pos h] at heq
      have : e.1 = k := congrArg Prod.fst heq
      exact absurd (this ▸ h) hk
    · rw [if_neg h] at heq
      exact heq ▸ he
  · intro h
    exact ⟨(k, b), h, by simp [hk]⟩

theorem QtBuilder.mem_setupAxis_enabled (m : Modes) (o : Int) (ho : o ≠ 0) (e : Int × Bool)
    (he : e ∈ m) (hb : e.2 = true) : e ∈ QtBuilder.setupAxis m o := by
  simp only [QtBuilder.setupAxis, List.mem_map]
  refine ⟨e, he, ?_⟩
  by_cases h : e.1 = o
  · rw [if_pos h]
    obtain ⟨k, b⟩ := e
    simp only at hb
    simp [hb, ho]
  · rw [if_neg h]

theorem QtBuilder.mem_keys_setupAxis (m : Modes) (o : Int) (ho : o ≠ 0) (k : Int) :
    k ∈ QMap.keys (QtBuilder.setupAxis m o) true ↔
      k ∈ QMap.keys m true ∨ (k = o ∧ o ∈ QMap.allKeys m) := by
  by_cases hk : k = o
  · subst hk
    rw [QMap.mem_keys_true, QMap.mem_keys_true, QMap.mem_allKeys]
    constructor
    · intro h
      right
      refine ⟨rfl, ?_⟩
      have : k ∈ QMap.allKeys (QtBuilder.setupAxis m k) := (QMap.mem_allKeys _ _).2 ⟨true, h⟩
      rw [QtBuilder.allKeys_setupAxis] at this
      exact (QMap.mem_allKeys _ _).1 this
    · rintro (h | ⟨_, b, hb⟩)
      · exact QtBuilder.mem_setupAxis_enabled m k ho (k, true) h rfl
      · simp only [QtBuilder.setupAxis, List.mem_map]
        exact ⟨(k, b), hb, by simp [ho]⟩
  · rw [QMap.mem_keys_true, QMap.mem_keys_true, QtBuilder.mem_setupAxis_of_ne m o k true hk]
    simp [hk]

/-- C9: `setup(option)` with a non-zero id only enables.  The enabled ids after the call
are the enabled ids before it together with `option` when `option` is a key of an axis;
on each axis the keys are as before, every entry that was enabled is still there, and the
entries whose key differs from `option` are as before; the persisted list is the
rendering of the enabled ids. -/
theorem setup_only_enables (s : QtBuilder) (option : Int) (ho : option ≠ 0) :
    (∀ k, k ∈ (s.setup option).enabledKeys ↔
      k ∈ s.enabledKeys ∨ (k = option ∧ option ∈ s.optionKeys)) ∧
    (∀ p ∈ s.m_opts.zip (s.setup option).m_opts,
      QMap.allKeys p.2 = QMap.allKeys p.1 ∧
      (∀ e ∈ p.1, e.2 = true → e ∈ p.2) ∧
      (∀ k b, k ≠ option → ((k, b) ∈ p.2 ↔ (k, b) ∈ p.1))) ∧
    (s.setup option).settings.BUILDOPT = (s.setup option).enabledKeys.map QString.number := by
  refine ⟨?_, ?_, rfl⟩
  · intro k
    simp only [QtBuilder.enabledKeys, QtBuilder.optionKeys, QtBuilder.setup, List.mem_append,
      QtBuilder.mem_keys_setupAxis _ _ ho]
    tauto
  · have hax : ∀ m : Modes,
        QMap.allKeys (QtBuilder.setupAxis m option) = QMap.allKeys m ∧
        (∀ e ∈ m, e.2 = true → e ∈ QtBuilder.setupAxis m option) ∧
        (∀ k b, k ≠ option → ((k, b) ∈ QtBuilder.setupAxis m option ↔ (k, b) ∈ m)) :=
      fun m => ⟨QtBuilder.allKeys_setupAxis m option,
        fun e he hb => QtBuilder.mem_setupAxis_enabled m option ho e he hb,
        fun k b hk => QtBuilder.mem_setupAxis_of_ne m option k b hk⟩
    intro p hp
    simp only [QtBuilder.m_opts, QtBuilder.setup, List.zip_cons_cons, List.zip_nil_right,
      List.mem_cons, List.mem_singleton, List.not_mem_nil, or_false] at hp
    rcases hp with h | h | h | h <;> subst h <;> exact hax _

/-- Witness of C9: on the freshly initialised object, where MSVC2010 (id 2) is disabled
and MSVC2013 (id 4) is enabled, `setup(2)` enables id 2 and keeps id 4 enabled. -/
theorem setup_only_enables_witness :
    (2 : Int) ≠ 0 ∧ (2 : Int) ∉ fresh.enabledKeys ∧
    (2 : Int) ∈ (fresh.setup 2).enabledKeys ∧ (4 : Int) ∈ (fresh.setup 2).enabledKeys :=
  have h := (setup_only_enables fresh 2 (by decide)).1
  ⟨by decide, by decide, (h 2).2 (Or.inr ⟨rfl, by decide⟩), (h 4).2 (Or.inl (by decide))⟩

/-! ## Restoring the axes from the settings store -/

theorem QMap.mem_insert_fresh {V : Type} (m : QMap V) (k : Int) (v : V)
    (hk : ∀ e ∈ m, e.1 ≠ k) (e : Int × V) :
    e ∈ QMap.insert m k v ↔ e = (k, v) ∨ e ∈ m := by
  induction m with
  | nil => simp [QMap.insert]
  | cons e1 rest ih =>
    obtain ⟨k1, v1⟩ := e1
    have hk1 : k1 ≠ k := hk (k1, v1) (List.mem_cons_self _ _)
    have hrest : ∀ e ∈ rest, e.1 ≠ k := fun e he => hk e (List.mem_cons_of_mem _ he)
    unfold QMap.insert
    split_ifs with h1 h2
    · simp
    · exact absurd h2.symm hk1
    · simp only [List.mem_cons, ih hrest]
      tauto

/-- The value that `QtBuildSettings::set` stores for `opt`. -/
def QtBuildSettings.flag (b : QtBuildSettings) (p : Int × Bool) : Int × Bool :=
  (p.1, decide (QString.number p.1 ∈ b.settings) || p.2)

theorem QtBuildSettings.mem_foldl_set (b : QtBuildSettings) (e : Int × Bool) :
    ∀ (l : List (Int × Bool)) (m : Modes), (l.map Prod.fst).Nodup →
      (∀ x ∈ m, ∀ p ∈ l, x.1 ≠ p.1) →
      (e ∈ l.foldl (fun acc p => b.set acc p.1 p.2) m ↔ e ∈ m ∨ ∃ p ∈ l, e = b.flag p) := by
  intro l
  induction l with
  | nil => intro m _ _; simp
  | cons p l ih =>
    intro m hnd hm
    simp only [List.map_cons, List.nodup_cons, List.mem_map, not_exists, not_and] at hnd
    have hfresh : ∀ x ∈ m, x.1 ≠ p.1 := fun x hx => hm x hx p (List.mem_cons_self _ _)
    have hset : ∀ x, x ∈ b.set m p.1 p.2 ↔ x = b.flag p ∨ x ∈ m := fun x => by
      unfold QtBuildSettings.set
      exact QMap.mem_insert_fresh m p.1 _ hfresh x
    have hm1 : ∀ x ∈ b.set m p.1 p.2, ∀ q ∈ l, x.1 ≠ q.1 := by
      intro x hx q hq
      rcases (hset x).1 hx with h | h
      · subst h
        intro heq
        exact hnd.1 q hq heq.symm
      · exact hm x h q (List.mem_cons_of_mem _ hq)
    rw [List.foldl_cons, ih (b.set m p.1 p.2) hnd.2 hm1, hset]
    simp only [List.mem_cons, exists_eq_or_imp]
    tauto

theorem QtBuildSettings.mem_keys_foldl_set (b : QtBuildSettings) (l : List (Int × Bool))
    (hnd : (l.map Prod.fst).Nodup) (k : Int) :
    k ∈ QMap.keys (l.foldl (fun acc p => b.set acc p.1 p.2) []) true ↔
      ∃ p ∈ l, p.1 = k ∧ (QString.number k ∈ b.settings ∨ p.2 = true) := by
  rw [QMap.mem_keys_true, QtBuildSettings.mem_foldl_set b _ l [] hnd (by simp)]
  simp only [List.not_mem_nil, false_or, QtBuildSettings.flag, Prod.mk.injEq]
  constructor
  · rintro ⟨p, hp, hk, hv⟩
    subst hk
    refine ⟨p, hp, rfl, ?_⟩
    simpa using hv.symm
  · rintro ⟨p, hp, hk, hv⟩
    subst hk
    refine ⟨p, hp, rfl, ?_⟩
    simpa using hv

theorem QtBuildSettings.mem_allKeys_foldl_set (b : QtBuildSettings) (l : List (Int × Bool))
    (hnd : (l.map Prod.fst).Nodup) (k : Int) :
    k ∈ QMap.allKeys (l.foldl (fun acc p => b.set acc p.1 p.2) []) ↔ k ∈ l.map Prod.fst := by
  rw [QMap.mem_allKeys]
  simp only [QtBuildSettings.mem_foldl_set b _ l [] hnd (by simp), List.not_mem_nil, false_or,
    QtBuildSettings.flag, Prod.mk.injEq, List.mem_map]
  constructor
  · rintro ⟨_, p, hp, hk, _⟩
    exact ⟨p, hp, hk.symm⟩
  · rintro ⟨p, hp, hk⟩
    exact ⟨_, p, hp, hk.symm, rfl⟩

/-- C10: after `setupDefaults` on the constructed object, for every persisted list, an
option of an axis is enabled exactly when its id is rendered in the persisted list or it
is enabled by default (MSVC2013, Shared, Static, X86, X64, Debug, Release); hence the
default-enabled options are enabled and no axis is without an enabled entry. -/
theorem setupDefaults_enabled_iff (env : Env) (st : Settings) (hd : env.ids.Distinct) :
    (∀ k, k ∈ QMap.keys ((QtBuilder.init st).setupDefaults env).m_msvcs true ↔
      k ∈ [env.ids.MSVC2010, env.ids.MSVC2012, env.ids.MSVC2013, env.ids.MSVC2015] ∧
        (QString.number k ∈ st.BUILDOPT ∨ k = env.ids.MSVC2013)) ∧
    (∀ k, k ∈ QMap.keys ((QtBuilder.init st).setupDefaults env).m_types true ↔
      k ∈ [env.ids.Shared, env.ids.Static] ∧
        (QString.number k ∈ st.BUILDOPT ∨ k = env.ids.Shared ∨ k = env.ids.Static)) ∧
    (∀ k, k ∈ QMap.keys ((QtBuilder.init st).setupDefaults env).m_archs true ↔
      k ∈ [env.ids.X86, env.ids.X64] ∧
        (QString.number k ∈ st.BUILDOPT ∨ k = env.ids.X86 ∨ k = env.ids.X64)) ∧
    (∀ k, k ∈ QMap.keys ((QtBuilder.init st).setupDefaults env).m_confs true ↔
      k ∈ [env.ids.Debug, env.ids.Release] ∧
        (QString.number k ∈ st.BUILDOPT ∨ k = env.ids.Debug ∨ k = env.ids.Release)) ∧
    (∀ k, k ∈ ((QtBuilder.init st).setupDefaults env).optionKeys ↔
      k ∈ [env.ids.Debug, env.ids.Release, env.ids.X86, env.ids.X64, env.ids.Shared,
        env.ids.Static, env.ids.MSVC2010, env.ids.MSVC2012, env.ids.MSVC2013,
        env.ids.MSVC2015]) ∧
    (∀ m ∈ ((QtBuilder.init st).setupDefaults env).m_opts, QMap.keys m true ≠ []) := by
  obtain ⟨_, hm, ht, ha, hc⟩ := hd
  have hmsvcs : ((QtBuilder.init st).setupDefaults env).m_msvcs =
      [(env.ids.MSVC2010, false), (env.ids.MSVC2012, false), (env.ids.MSVC2013, true),
        (env.ids.MSVC2015, false)].foldl
        (fun acc p => QtBuildSettings.set ⟨st.BUILDOPT⟩ acc p.1 p.2) [] := rfl
  have htypes : ((QtBuilder.init st).setupDefaults env).m_types =
      [(env.ids.Shared, true), (env.ids.Static, true)].foldl
        (fun acc p => QtBuildSettings.set ⟨st.BUILDOPT⟩ acc p.1 p.2) [] := rfl
  have harchs : ((QtBuilder.init st).setupDefaults env).m_archs =
      [(env.ids.X86, true), (env.ids.X64, true)].foldl
        (fun acc p => QtBuildSettings.set ⟨st.BUILDOPT⟩ acc p.1 p.2) [] := rfl
  have hconfs : ((QtBuilder.init st).setupDefaults env).m_confs =
      [(env.ids.Debug, true), (env.ids.Release, true)].foldl
        (fun acc p => QtBuildSettings.set ⟨st.BUILDOPT⟩ acc p.1 p.2) [] := rfl
  have hndm : (([(env.ids.MSVC2010, false), (env.ids.MSVC2012, false),
      (env.ids.MSVC2013, true), (env.ids.MSVC2015, false)] : List (Int × Bool)).map
      Prod.fst).Nodup := by simpa using hm
  have hndt : (([(env.ids.Shared, true), (env.ids.Static, true)] : List (Int × Bool)).map
      Prod.fst).Nodup := by simpa using ht
  have hnda : (([(env.ids.X86, true), (env.ids.X64, true)] : List (Int × Bool)).map
      Prod.fst).Nodup := by simpa using ha
  have hndc : (([(env.ids.Debug, true), (env.ids.Release, true)] : List (Int × Bool)).map
      Prod.fst).Nodup := by simpa using hc
  have h1 : ∀ k, k ∈ QMap.keys ((QtBuilder.init st).setupDefaults env).m_msvcs true ↔
      k ∈ [env.ids.MSVC2010, env.ids.MSVC2012, env.ids.MSVC2013, env.ids.MSVC2015] ∧
        (QString.number k ∈ st.BUILDOPT ∨ k = env.ids.MSVC2013) := by
    intro k
    rw [hmsvcs, QtBuildSettings.mem_keys_foldl_set _ _ hndm]
    simp only [List.nodup_cons, List.mem_cons, List.mem_singleton, List.not_mem_nil,
      not_or, or_false] at hm
    simp only [List.mem_cons, List.mem_singleton, List.not_mem_nil, or_false,
      exists_eq_or_imp, exists_eq_left, Bool.false_eq_true]
    constructor
    · rintro (⟨h, hs⟩ | ⟨h, hs⟩ | ⟨h, hs⟩ | ⟨h, hs⟩) <;> subst h <;> simp_all
    · rintro ⟨h | h | h | h, hs | hs⟩
      · exact Or.inl ⟨h.symm, hs⟩
      · exact Or.inr (Or.inr (Or.inl ⟨hs.symm, Or.inr trivial⟩))
      · exact Or.inr (Or.inl ⟨h.symm, hs⟩)
      · exact Or.inr (Or.inr (Or.inl ⟨hs.symm, Or.inr trivial⟩))
      · exact Or.inr (Or.inr (Or.inl ⟨h.symm, Or.inr trivial⟩))
      · exact Or.inr (Or.inr (Or.inl ⟨hs.symm, Or.inr trivial⟩))
      · exact Or.inr (Or.inr (Or.inr ⟨h.symm, hs⟩))
      · exact Or.inr (Or.inr (Or.inl ⟨hs.symm, Or.inr trivial⟩))
  have h2 : ∀ k, k ∈ QMap.keys ((QtBuilder.init st).setupDefaults env).m_types true ↔
      k ∈ [env.ids.Shared, env.ids.Static] ∧
        (QString.number k ∈ st.BUILDOPT ∨ k = env.ids.Shared ∨ k = env.ids.Static) := by
    intro k
    rw [htypes, QtBuildSettings.mem_keys_foldl_set _ _ hndt]
    simp only [List.mem_cons, List.mem_singleton, List.not_mem_nil, or_false,
      exists_eq_or_imp, exists_eq_left]
    constructor
    · rintro (⟨h, _⟩ | ⟨h, _⟩) <;> subst h <;> simp
    · rintro ⟨h | h, _⟩ <;> subst h <;> simp
  have h3 : ∀ k, k ∈ QMap.keys ((QtBuilder.init st).setupDefaults env).m_archs true ↔
      k ∈ [env.ids.X86, env.ids.X64] ∧
        (QString.number k ∈ st.BUILDOPT ∨ k = env.ids.X86 ∨ k = env.ids.X64) := by
    intro k
    rw [harchs, QtBuildSettings.mem_keys_foldl_set _ _ hnda]
    simp only [List.mem_cons, List.mem_singleton, List.not_mem_nil, or_false,
      exists_eq_or_imp, exists_eq_left]
    constructor
    · rintro (⟨h, _⟩ | ⟨h, _⟩) <;> subst h <;> simp
    · rintro ⟨h | h, _⟩ <;> subst h <;> simp
  have h4 : ∀ k, k ∈ QMap.keys ((QtBuilder.init st).setupDefaults env).m_confs true ↔
      k ∈ [env.ids.Debug, env.ids.Release] ∧
        (QString.number k ∈ st.BUILDOPT ∨ k = env.ids.Debug ∨ k = env.ids.Release) := by
    intro k
    rw [hconfs, QtBuildSettings.mem_keys_foldl_set _ _ hndc]
    simp only [List.mem_cons, List.mem_singleton, List.not_mem_nil, or_false,
      exists_eq_or_imp, exists_eq_left]
    constructor
    · rintro (⟨h, _⟩ | ⟨h, _⟩) <;> subst h <;> simp
    · rintro ⟨h | h, _⟩ <;> subst h <;> simp
  refine ⟨h1, h2, h3, h4, ?_, ?_⟩
  · intro k
    simp only [QtBuilder.optionKeys, List.mem_append]
    rw [hmsvcs, htypes, harchs, hconfs,
      QtBuildSettings.mem_allKeys_foldl_set _ _ hndm, QtBuildSettings.mem_allKeys_foldl_set _ _ hndt,
      QtBuildSettings.mem_allKeys_foldl_set _ _ hnda, QtBuildSettings.mem_allKeys_foldl_set _ _ hndc]
    simp only [List.map_cons, List.map_nil, List.mem_cons, List.mem_singleton,
      List.not_mem_nil, or_false, or_assoc]
  · intro m hmem
    simp only [QtBuilder.m_opts, List.mem_cons, List.mem_singleton, List.not_mem_nil,
      or_false] at hmem
    rcases hmem with h | h | h | h <;> subst h
    · exact List.ne_nil_of_mem ((h4 env.ids.Debug).2 (by simp))
    · exact List.ne_nil_of_mem ((h3 env.ids.X86).2 (by simp))
    · exact List.ne_nil_of_mem ((h2 env.ids.Shared).2 (by simp))
    · exact List.ne_nil_of_mem ((h1 env.ids.MSVC2013).2 (by simp))


/-- Witness of C10: with the persisted list ["2"], MSVC2010 (id 2) is restored as enabled
next to the default MSVC2013 (id 4), and every axis has an enabled entry. -/
theorem setupDefaults_enabled_iff_witness :
    sampleIds.Distinct ∧
    QMap.keys ((QtBuilder.init { noSettings with BUILDOPT := ["2"] }).setupDefaults
      (sampleEnv 4 true true)).m_msvcs true = [2, 4] ∧
    (∀ m ∈ ((QtBuilder.init { noSettings with BUILDOPT := ["2"] }).setupDefaults
      (sampleEnv 4 true true)).m_opts, QMap.keys m true ≠ []) :=
  ⟨by decide, by decide,
    (setupDefaults_enabled_iff (sampleEnv 4 true true) { noSettings with BUILDOPT := ["2"] }
      (by decide)).2.2.2.2.2⟩
